import Mathlib

/-!
# Sweet Success Bakery — verification of the idle-progression engine

Shallow embedding of the Bakery idle game's core engine:
the progression model (`js/gameState.js`, bundled at the end of
`js/offlineProgress.js`), the recipe system (`js/recipes.js`), the
tick/offline engine (`js/offlineProgress.js`) and the persistence gateway
(`saveManager.js`).

JavaScript numbers are modelled as exact rationals (`ℚ`); integer-valued
counters (`totalBaked`, `level`, `bakeCount`, `autoBakers`) as `ℕ`.
`Math.floor` / `Math.ceil` become `jsFloor` / `jsCeil` on `ℚ`.
The flat JS objects used as maps (`recipes`, `upgrades`, `milestones`)
become association lists keyed by the property-name string; property read
is `findKey`, in-place mutation of an aliased entry is `setKey`.
Each mutating method `GameState → ...` returns the updated state (with its
boolean result where the source returns one).
-/

/-- `Math.floor` on an exact rational. -/
def jsFloor (q : ℚ) : ℤ := ⌊q⌋

/-- `Math.ceil` on an exact rational. -/
def jsCeil (q : ℚ) : ℤ := -⌊-q⌋

/-- Property read on a flat JS object used as a map: first binding wins. -/
def findKey {α : Type} (k : String) : List (String × α) → Option α
  | [] => none
  | p :: t => if p.1 = k then some p.2 else findKey k t

/-- In-place mutation of the entry bound to `k` (the JS code mutates the
aliased object, so every binding of that key sees the new value). -/
def setKey {α : Type} (l : List (String × α)) (k : String) (v : α) :
    List (String × α) :=
  l.map (fun p => if p.1 = k then (k, v) else p)

/-- A recipe object as initialised in `GameState.initializeRecipes`. -/
structure Recipe where
  id : String
  name : String
  icon : String
  baseCost : ℚ
  currentCost : ℚ
  bakeTime : ℚ
  baseProduction : ℚ
  currentProduction : ℚ
  unlocked : Bool
  bakeCount : ℕ
  totalProduction : ℚ
  level : ℕ
  upgradeCost : ℚ
deriving DecidableEq, Repr

/-- The `type` discriminator of an upgrade. -/
inductive UpgradeType where
  | production
  | capacity
  | reputation
deriving DecidableEq, Repr

/-- An upgrade object as initialised in `GameState.initializeUpgrades`. -/
structure Upgrade where
  id : String
  name : String
  icon : String
  level : ℕ
  maxLevel : ℕ
  baseCost : ℚ
  currentCost : ℚ
  description : String
  bonus : ℚ
  type : UpgradeType
deriving DecidableEq, Repr

/-- A milestone object as initialised in `GameState.initializeMilestones`
(`allRecipesUnlocked` has no `requirement` property, hence `Option`). -/
structure Milestone where
  id : String
  name : String
  completed : Bool
  requirement : Option ℚ
deriving DecidableEq, Repr

/-- The `GameState` aggregate: every data field of the `GameState` object
literal in `gameState.js`. -/
structure GameState where
  money : ℚ
  totalMoneyEarned : ℚ
  moneyPerSecond : ℚ
  totalBaked : ℕ
  currentRecipe : Option String
  recipes : List (String × Recipe)
  autoBakers : ℕ
  autoBakerLevel : ℕ
  autoBakerCost : ℚ
  autoBakerProductionBonus : ℚ
  upgrades : List (String × Upgrade)
  reputation : ℚ
  maxReputation : ℚ
  customersServed : ℕ
  customerSatisfaction : ℚ
  level : ℕ
  experience : ℚ
  experiencePerLevel : ℚ
  milestones : List (String × Milestone)
  lastSaveTime : ℚ
  lastPlayTime : ℚ
  totalPlayTime : ℚ
  gameStartTime : ℚ
deriving DecidableEq, Repr

namespace GameState

/-- `GameState.completeMilestone(milestoneId)`: if the milestone exists,
mark it completed and award +50 to `money` and `totalMoneyEarned`. -/
def completeMilestone (s : GameState) (milestoneId : String) : GameState :=
  match findKey milestoneId s.milestones with
  | none => s
  | some m =>
      { s with
        milestones := setKey s.milestones milestoneId { m with completed := true }
        money := s.money + 50
        totalMoneyEarned := s.totalMoneyEarned + 50 }

/-- Reads `this.milestones.<id>.completed`.  A missing entry would be a
`TypeError` in the JS source (never reached on real states); reading it as
`true` makes the guard in `checkMilestones` skip, i.e. no completion is
attempted, which is the only total choice that adds no behaviour. -/
def milestoneDone (s : GameState) (milestoneId : String) : Bool :=
  match findKey milestoneId s.milestones with
  | none => true
  | some m => m.completed

/-- `GameState.checkMilestones()`: the three threshold milestones, checked
in source order on the successively updated state. -/
def checkMilestones (s : GameState) : GameState :=
  let s1 := if 1 ≤ s.totalBaked ∧ s.milestoneDone "firstBake" = false then
      s.completeMilestone "firstBake" else s
  let s2 := if 100 ≤ s1.totalBaked ∧ s1.milestoneDone "hundredBakes" = false then
      s1.completeMilestone "hundredBakes" else s1
  if 1000 ≤ s2.totalMoneyEarned ∧ s2.milestoneDone "thousandDollars" = false then
    s2.completeMilestone "thousandDollars" else s2

/-- `GameState.bake(recipe)`.  The JS method receives a recipe *object*;
`arg = some k` stands for passing the state's recipe bound to key `k`,
`arg = none` for a falsy argument, which the source replaces by
`this.recipes.cookie` before checking `unlocked`. -/
def bake (s : GameState) (arg : Option String) : Bool × GameState :=
  let rid := arg.getD "cookie"
  match findKey rid s.recipes with
  | none => (false, s)
  | some r =>
      if r.unlocked = false then (false, s)
      else
        let earnings := r.currentProduction
        let r2 := { r with
          bakeCount := r.bakeCount + 1
          totalProduction := r.totalProduction + earnings }
        let s2 := { s with
          money := s.money + earnings
          totalMoneyEarned := s.totalMoneyEarned + earnings
          totalBaked := s.totalBaked + 1
          recipes := setKey s.recipes rid r2 }
        (true, s2.checkMilestones)

/-- `GameState.unlockRecipe(recipeId)`: idempotent unlock, no-op on a
missing id. -/
def unlockRecipe (s : GameState) (recipeId : String) : GameState :=
  match findKey recipeId s.recipes with
  | none => s
  | some r => { s with recipes := setKey s.recipes recipeId { r with unlocked := true } }

/-- `GameState.applyUpgradeBonus(upgrade)`: a `production`-type upgrade
recomputes every recipe's `currentProduction` from
`baseProduction * bonus ^ level` of the upgrade. -/
def applyUpgradeBonus (s : GameState) (u : Upgrade) : GameState :=
  if u.type = UpgradeType.production then
    { s with recipes := s.recipes.map (fun p =>
        (p.1, { p.2 with
          currentProduction := ((jsCeil (p.2.baseProduction * u.bonus ^ u.level) : ℤ) : ℚ) })) }
  else s

/-- `GameState.purchaseUpgrade(upgradeId)`. -/
def purchaseUpgrade (s : GameState) (upgradeId : String) : Bool × GameState :=
  match findKey upgradeId s.upgrades with
  | none => (false, s)
  | some u =>
      if u.maxLevel ≤ u.level then (false, s)
      else if s.money < u.currentCost then (false, s)
      else
        let u2 := { u with
          level := u.level + 1
          currentCost := ((jsCeil (u.baseCost * (11 / 10 : ℚ) ^ (u.level + 1)) : ℤ) : ℚ) }
        let s2 := { s with
          money := s.money - u.currentCost
          upgrades := setKey s.upgrades upgradeId u2 }
        (true, s2.applyUpgradeBonus u2)

/-- The passive-income formula computed by
`GameState.recalculateMoneyPerSecond()`:
`autoBakers * 5` plus, for every unlocked recipe with positive level,
`currentProduction * level * 0.1`. -/
def passiveProduction (autoBakers : ℕ) (recipes : List (String × Recipe)) : ℚ :=
  recipes.foldl
    (fun acc p =>
      if p.2.unlocked = true ∧ 0 < p.2.level then
        acc + p.2.currentProduction * (p.2.level : ℚ) * (1 / 10)
      else acc)
    ((autoBakers : ℚ) * 5)

/-- `GameState.recalculateMoneyPerSecond()`. -/
def recalculateMoneyPerSecond (s : GameState) : GameState :=
  { s with moneyPerSecond := passiveProduction s.autoBakers s.recipes }

/-- `GameState.hireAutoBaker()`. -/
def hireAutoBaker (s : GameState) : Bool × GameState :=
  if s.money < s.autoBakerCost then (false, s)
  else
    let s2 := { s with
      money := s.money - s.autoBakerCost
      autoBakers := s.autoBakers + 1
      autoBakerLevel := s.autoBakerLevel + 1
      autoBakerCost := ((jsCeil (s.autoBakerCost * (23 / 20 : ℚ)) : ℤ) : ℚ) }
    (true, s2.recalculateMoneyPerSecond)

end GameState

namespace Recipes

/-- `Recipes.bakeRecipe(gameState, recipeId)`: id-keyed bake path; unlike
`GameState.bake` it never falls back to the cookie recipe and never calls
`checkMilestones`. -/
def bakeRecipe (s : GameState) (recipeId : String) : Bool × GameState :=
  match findKey recipeId s.recipes with
  | none => (false, s)
  | some r =>
      if r.unlocked = false then (false, s)
      else
        let earnings := r.currentProduction
        (true,
          { s with
            money := s.money + earnings
            totalMoneyEarned := s.totalMoneyEarned + earnings
            totalBaked := s.totalBaked + 1
            recipes := setKey s.recipes recipeId { r with
              bakeCount := r.bakeCount + 1
              totalProduction := r.totalProduction + earnings } })

/-- `Recipes.upgradeRecipe(gameState, recipeId)`. -/
def upgradeRecipe (s : GameState) (recipeId : String) : Bool × GameState :=
  match findKey recipeId s.recipes with
  | none => (false, s)
  | some r =>
      if r.unlocked = false then (false, s)
      else if s.money < r.upgradeCost then (false, s)
      else
        let r2 := { r with
          level := r.level + 1
          currentProduction := ((jsCeil (r.baseProduction * (6 / 5 : ℚ) ^ (r.level + 1)) : ℤ) : ℚ)
          upgradeCost := ((jsCeil (r.upgradeCost * (23 / 20 : ℚ)) : ℤ) : ℚ) }
        (true,
          { s with
            money := s.money - r.upgradeCost
            recipes := setKey s.recipes recipeId r2 })

end Recipes

namespace OfflineProgress

/-- `OfflineProgress.MAX_OFFLINE_TIME`: 7 days in seconds. -/
def MAX_OFFLINE_TIME : ℚ := 7 * 24 * 60 * 60

/-- The record returned by `OfflineProgress.calculateOfflineEarnings`. -/
structure OfflineEarnings where
  earnings : ℤ
  secondsCalculated : ℚ
  autoBakerIncome : ℚ
  recipeIncome : ℚ
deriving DecidableEq, Repr

/-- The recipe-income loop shared by `calculateOfflineEarnings` and
`recalculateMoneyPerSecond`: sum of `currentProduction * level * 0.1`
over unlocked recipes with positive level. -/
def recipeIncomeSum (recipes : List (String × Recipe)) : ℚ :=
  recipes.foldl
    (fun acc p =>
      if p.2.unlocked = true ∧ 0 < p.2.level then
        acc + p.2.currentProduction * (p.2.level : ℚ) * (1 / 10)
      else acc)
    0

/-- `OfflineProgress.calculateOfflineEarnings(gameState, secondsOffline)`. -/
def calculateOfflineEarnings (s : GameState) (secondsOffline : ℚ) : OfflineEarnings :=
  let cappedSeconds := min secondsOffline MAX_OFFLINE_TIME
  let autoBakerIncome := (s.autoBakers : ℚ) * 5
  let recipeIncome := recipeIncomeSum s.recipes
  let totalIncome := autoBakerIncome + recipeIncome
  { earnings := jsFloor (totalIncome * cappedSeconds)
    secondsCalculated := cappedSeconds
    autoBakerIncome := autoBakerIncome
    recipeIncome := recipeIncome }

/-- The `{moneyGained, itemsBaked}` record returned by
`applyOfflineProgress`. -/
structure OfflineResult where
  moneyGained : ℤ
  itemsBaked : ℤ
deriving DecidableEq, Repr

/-- `OfflineProgress.applyOfflineProgress(gameState, secondsOffline)`.
Note the source floors `itemsBaked` over the *uncapped* `secondsOffline`
while `earnings` uses the capped seconds. -/
def applyOfflineProgress (s : GameState) (secondsOffline : ℚ) :
    OfflineResult × GameState :=
  if secondsOffline ≤ 0 then ({ moneyGained := 0, itemsBaked := 0 }, s)
  else
    let e := calculateOfflineEarnings s secondsOffline
    let s1 := { s with
      money := s.money + (e.earnings : ℚ)
      totalMoneyEarned := s.totalMoneyEarned + (e.earnings : ℚ) }
    let itemsBaked : ℤ :=
      if 0 < e.autoBakerIncome then jsFloor (e.autoBakerIncome * secondsOffline / 5)
      else 0
    ({ moneyGained := e.earnings, itemsBaked := itemsBaked },
      { s1 with totalBaked := s1.totalBaked + itemsBaked.toNat })

/-- `OfflineProgress.tick(gameState)`: credits the cached `moneyPerSecond`
and accrues the per-recipe `totalProduction` bookkeeping. -/
def tick (s : GameState) : GameState :=
  let passiveIncome := s.moneyPerSecond
  if 0 < passiveIncome then
    { s with
      money := s.money + passiveIncome
      totalMoneyEarned := s.totalMoneyEarned + passiveIncome
      recipes := s.recipes.map (fun p =>
        if p.2.unlocked = true ∧ 0 < p.2.level ∧
            0 < p.2.currentProduction * (p.2.level : ℚ) * (1 / 10) then
          (p.1, { p.2 with
            totalProduction :=
              p.2.totalProduction + p.2.currentProduction * (p.2.level : ℚ) * (1 / 10) })
        else p) }
  else s

end OfflineProgress

namespace SaveManager

/-- The `state` snapshot built by `SaveManager.save`: exactly the fields
enumerated in the source (note `lastSaveTime` is stored as `Date.now()`,
not as the model's `lastSaveTime`). -/
structure SavedState where
  money : ℚ
  totalMoneyEarned : ℚ
  moneyPerSecond : ℚ
  totalBaked : ℕ
  currentRecipe : Option String
  recipes : List (String × Recipe)
  autoBakers : ℕ
  autoBakerLevel : ℕ
  autoBakerCost : ℚ
  upgrades : List (String × Upgrade)
  reputation : ℚ
  customersServed : ℕ
  customerSatisfaction : ℚ
  level : ℕ
  experience : ℚ
  milestones : List (String × Milestone)
  lastSaveTime : ℚ
  lastPlayTime : ℚ
  totalPlayTime : ℚ
  gameStartTime : ℚ
deriving DecidableEq, Repr

/-- The versioned record written to the storage slot. -/
structure SaveRecord where
  version : ℕ
  timestamp : ℚ
  state : SavedState
deriving DecidableEq, Repr

/-- `SaveManager.save(gameState)` at wall-clock instant `now`
(`Date.now()` in the source).  JSON serialisation of the record to the
localStorage slot is faithful at this abstraction, so `save` returns the
record stored in the slot. -/
def save (s : GameState) (now : ℚ) : SaveRecord :=
  { version := 1
    timestamp := now
    state := {
      money := s.money
      totalMoneyEarned := s.totalMoneyEarned
      moneyPerSecond := s.moneyPerSecond
      totalBaked := s.totalBaked
      currentRecipe := s.currentRecipe
      recipes := s.recipes
      autoBakers := s.autoBakers
      autoBakerLevel := s.autoBakerLevel
      autoBakerCost := s.autoBakerCost
      upgrades := s.upgrades
      reputation := s.reputation
      customersServed := s.customersServed
      customerSatisfaction := s.customerSatisfaction
      level := s.level
      experience := s.experience
      milestones := s.milestones
      lastSaveTime := now
      lastPlayTime := s.lastPlayTime
      totalPlayTime := s.totalPlayTime
      gameStartTime := s.gameStartTime } }

/-- `SaveManager.load()` reading the storage slot (`none` when the slot is
empty): returns `parsed.state`; a version mismatch only warns. -/
def load (slot : Option SaveRecord) : Option SavedState :=
  match slot with
  | none => none
  | some r => some r.state

/-- `SaveManager.restoreState(gameState, savedState)`:
`Object.assign(gameState, savedState)` — overwrite every field present in
the snapshot, keep the model's value for fields the snapshot lacks
(`autoBakerProductionBonus`, `maxReputation`, `experiencePerLevel`). -/
def restoreState (s : GameState) (saved : Option SavedState) : GameState :=
  match saved with
  | none => s
  | some st =>
      { s with
        money := st.money
        totalMoneyEarned := st.totalMoneyEarned
        moneyPerSecond := st.moneyPerSecond
        totalBaked := st.totalBaked
        currentRecipe := st.currentRecipe
        recipes := st.recipes
        autoBakers := st.autoBakers
        autoBakerLevel := st.autoBakerLevel
        autoBakerCost := st.autoBakerCost
        upgrades := st.upgrades
        reputation := st.reputation
        customersServed := st.customersServed
        customerSatisfaction := st.customerSatisfaction
        level := st.level
        experience := st.experience
        milestones := st.milestones
        lastSaveTime := st.lastSaveTime
        lastPlayTime := st.lastPlayTime
        totalPlayTime := st.totalPlayTime
        gameStartTime := st.gameStartTime }

end SaveManager

namespace GameState

/-- The five recipes set up by `GameState.initializeRecipes()`. -/
def initialRecipes : List (String × Recipe) :=
  [("cookie",
    { id := "cookie", name := "Sugar Cookie", icon := "🍪", baseCost := 1,
      currentCost := 1, bakeTime := 2, baseProduction := 1, currentProduction := 1,
      unlocked := true, bakeCount := 0, totalProduction := 0, level := 0,
      upgradeCost := 10 }),
   ("brownie",
    { id := "brownie", name := "Chocolate Brownie", icon := "🍫", baseCost := 5,
      currentCost := 5, bakeTime := 3, baseProduction := 2, currentProduction := 2,
      unlocked := false, bakeCount := 0, totalProduction := 0, level := 0,
      upgradeCost := 30 }),
   ("croissant",
    { id := "croissant", name := "Butter Croissant", icon := "🥐", baseCost := 15,
      currentCost := 15, bakeTime := 4, baseProduction := 5, currentProduction := 5,
      unlocked := false, bakeCount := 0, totalProduction := 0, level := 0,
      upgradeCost := 75 }),
   ("cake",
    { id := "cake", name := "Vanilla Cake", icon := "🎂", baseCost := 50,
      currentCost := 50, bakeTime := 6, baseProduction := 15, currentProduction := 15,
      unlocked := false, bakeCount := 0, totalProduction := 0, level := 0,
      upgradeCost := 200 }),
   ("donut",
    { id := "donut", name := "Glazed Donut", icon := "🍩", baseCost := 8,
      currentCost := 8, bakeTime := 2, baseProduction := 3, currentProduction := 3,
      unlocked := false, bakeCount := 0, totalProduction := 0, level := 0,
      upgradeCost := 40 })]

/-- The three upgrades set up by `GameState.initializeUpgrades()`. -/
def initialUpgrades : List (String × Upgrade) :=
  [("betterOven",
    { id := "betterOven", name := "Better Oven", icon := "🔥", level := 0,
      maxLevel := 10, baseCost := 100, currentCost := 100,
      description := "+5% production per level", bonus := 21 / 20,
      type := UpgradeType.production }),
   ("moreShelves",
    { id := "moreShelves", name := "More Shelves", icon := "📦", level := 0,
      maxLevel := 10, baseCost := 150, currentCost := 150,
      description := "+10% capacity per level", bonus := 11 / 10,
      type := UpgradeType.capacity }),
   ("marketingCampaign",
    { id := "marketingCampaign", name := "Marketing Campaign", icon := "📢",
      level := 0, maxLevel := 5, baseCost := 200, currentCost := 200,
      description := "+20% reputation gain per level", bonus := 6 / 5,
      type := UpgradeType.reputation })]

/-- The four milestones set up by `GameState.initializeMilestones()`. -/
def initialMilestones : List (String × Milestone) :=
  [("firstBake",
    { id := "firstBake", name := "First Bake", completed := false, requirement := some 1 }),
   ("hundredBakes",
    { id := "hundredBakes", name := "100 Bakes", completed := false, requirement := some 100 }),
   ("thousandDollars",
    { id := "thousandDollars", name := "$1,000 Earned", completed := false,
      requirement := some 1000 }),
   ("allRecipesUnlocked",
    { id := "allRecipesUnlocked", name := "Master Baker", completed := false,
      requirement := none })]

/-- The field values of the `GameState` object literal itself, before
`initialize()` runs (`gameStartTime: Date.now()` is the literal's load
instant, passed in as `loadNow`). -/
def base (loadNow : ℚ) : GameState :=
  { money := 0, totalMoneyEarned := 0, moneyPerSecond := 0, totalBaked := 0,
    currentRecipe := none, recipes := [], autoBakers := 0, autoBakerLevel := 0,
    autoBakerCost := 50, autoBakerProductionBonus := 1, upgrades := [],
    reputation := 0, maxReputation := 100, customersServed := 0,
    customerSatisfaction := 100, level := 1, experience := 0,
    experiencePerLevel := 100, milestones := [], lastSaveTime := 0,
    lastPlayTime := 0, totalPlayTime := 0, gameStartTime := loadNow }

/-- `GameState.initialize()` run at wall-clock instant `now`. -/
def initState (s : GameState) (now : ℚ) : GameState :=
  { s with
    money := 10
    totalMoneyEarned := 10
    lastSaveTime := now
    gameStartTime := now
    recipes := initialRecipes
    upgrades := initialUpgrades
    milestones := initialMilestones }

/-- `hireAutoBaker` applied `k` times in sequence (each call applied to
the state the previous one produced). -/
def hireN (s : GameState) : ℕ → GameState
  | 0 => s
  | k + 1 => ((s.hireN k).hireAutoBaker).2

/-- All of the first `k` `hireAutoBaker` calls return `true`. -/
def hiresOk (s : GameState) : ℕ → Bool
  | 0 => true
  | k + 1 => s.hiresOk k && ((s.hireN k).hireAutoBaker).1

end GameState

/-- A freshly initialised game: the object literal followed by
`GameState.initialize()` (session start taken as instant 0). -/
def freshState : GameState := (GameState.base 0).initState 0

/-- `k`-fold compounding of the auto-baker cost as the source performs it:
`cost = Math.ceil(cost * 1.15)` starting from `c`. -/
def costIterFrom (c : ℚ) : ℕ → ℚ
  | 0 => c
  | k + 1 => ((jsCeil (costIterFrom c k * (23 / 20 : ℚ)) : ℤ) : ℚ)

/-- One invocation of a core engine operation, for reasoning about
arbitrary operation sequences. -/
inductive Op where
  | bake (arg : Option String)
  | unlockRecipe (recipeId : String)
  | purchaseUpgrade (upgradeId : String)
  | upgradeRecipe (recipeId : String)
  | hireAutoBaker
  | tick
  | applyOfflineProgress (secondsOffline : ℚ)
  | checkMilestones

/-- Apply one core operation to the game state (discarding reported
results). -/
def applyOp (s : GameState) : Op → GameState
  | Op.bake arg => (s.bake arg).2
  | Op.unlockRecipe rid => s.unlockRecipe rid
  | Op.purchaseUpgrade uid => (s.purchaseUpgrade uid).2
  | Op.upgradeRecipe rid => (Recipes.upgradeRecipe s rid).2
  | Op.hireAutoBaker => (s.hireAutoBaker).2
  | Op.tick => OfflineProgress.tick s
  | Op.applyOfflineProgress secs => (OfflineProgress.applyOfflineProgress s secs).2
  | Op.checkMilestones => s.checkMilestones

/-- Run a sequence of core operations left to right. -/
def runOps (s : GameState) (ops : List Op) : GameState :=
  ops.foldl applyOp s

/-! ## Association-list lemmas -/

theorem findKey_setKey_self {α : Type} (l : List (String × α)) (k : String) (v : α) :
    findKey k (setKey l k v) = (findKey k l).map (fun _ => v) := by
  induction l with
  | nil => rfl
  | cons p t ih =>
      simp only [setKey, List.map_cons] at ih ⊢
      by_cases hp : p.1 = k
      · rw [if_pos hp]
        simp [findKey, hp]
      · rw [if_neg hp]
        simp only [findKey, if_neg hp]
        exact ih

theorem findKey_setKey_ne {α : Type} (l : List (String × α)) (k k2 : String) (v : α)
    (h : k2 ≠ k) : findKey k2 (setKey l k v) = findKey k2 l := by
  induction l with
  | nil => rfl
  | cons p t ih =>
      simp only [setKey, List.map_cons] at ih ⊢
      by_cases hp : p.1 = k
      · rw [if_pos hp]
        simp only [findKey, hp, if_neg (Ne.symm h)]
        exact ih
      · rw [if_neg hp]
        simp only [findKey]
        rw [ih]

theorem findKey_mapVal {α β : Type} (l : List (String × α)) (k : String) (f : α → β) :
    findKey k (l.map (fun p => (p.1, f p.2))) = (findKey k l).map f := by
  induction l with
  | nil => rfl
  | cons p t ih => by_cases h : p.1 = k <;> simp [findKey, h, ih]

/-! ## Milestone book-keeping lemmas -/

theorem completeMilestone_findKey_ne {mid mid2 : String} (h : mid2 ≠ mid)
    (s : GameState) :
    findKey mid2 (s.completeMilestone mid).milestones = findKey mid2 s.milestones := by
  unfold GameState.completeMilestone
  cases hfk : findKey mid s.milestones <;> simp [findKey_setKey_ne _ _ _ _ h]

theorem completeMilestone_milestoneDone_self (s : GameState) (mid : String) :
    (s.completeMilestone mid).milestoneDone mid = true := by
  unfold GameState.completeMilestone GameState.milestoneDone
  cases hfk : findKey mid s.milestones with
  | none => simp [hfk]
  | some m => simp [findKey_setKey_self, hfk]

theorem completeMilestone_milestoneDone_ne {mid mid2 : String} (h : mid2 ≠ mid)
    (s : GameState) :
    (s.completeMilestone mid).milestoneDone mid2 = s.milestoneDone mid2 := by
  unfold GameState.milestoneDone
  rw [completeMilestone_findKey_ne h]

theorem completeMilestone_milestoneDone_mono {mid2 : String} (s : GameState)
    (mid : String) (h : s.milestoneDone mid2 = true) :
    (s.completeMilestone mid).milestoneDone mid2 = true := by
  by_cases he : mid2 = mid
  · subst he
    exact completeMilestone_milestoneDone_self s mid2
  · rw [completeMilestone_milestoneDone_ne he]
    exact h

theorem completeMilestone_totalBaked (s : GameState) (mid : String) :
    (s.completeMilestone mid).totalBaked = s.totalBaked := by
  unfold GameState.completeMilestone
  cases hfk : findKey mid s.milestones <;> simp

theorem completeMilestone_totalMoneyEarned_le (s : GameState) (mid : String) :
    s.totalMoneyEarned ≤ (s.completeMilestone mid).totalMoneyEarned := by
  unfold GameState.completeMilestone
  cases hfk : findKey mid s.milestones <;> simp

theorem checkMilestones_done_mono {mid : String} (s : GameState)
    (h : s.milestoneDone mid = true) :
    (s.checkMilestones).milestoneDone mid = true := by
  simp only [GameState.checkMilestones]
  split_ifs <;> (repeat' apply completeMilestone_milestoneDone_mono) <;> exact h

theorem checkMilestones_findKey_other {mid : String} (s : GameState)
    (h1 : mid ≠ "firstBake") (h2 : mid ≠ "hundredBakes")
    (h3 : mid ≠ "thousandDollars") :
    findKey mid (s.checkMilestones).milestones = findKey mid s.milestones := by
  simp only [GameState.checkMilestones]
  split_ifs <;>
    simp [completeMilestone_findKey_ne h1, completeMilestone_findKey_ne h2,
      completeMilestone_findKey_ne h3]

/-! ## Claim C1 — failure behaviour of the bake operations -/

/-- C1 (counterexample): the claim says an absent recipe argument makes
the bake operation return `false` with no mutation; but on a freshly
initialised state `GameState.bake` with an absent (falsy) argument falls
back to the cookie recipe, returns `true`, and changes `money`. -/
theorem claim1_counterexample :
    (freshState.bake none).1 = true ∧ (freshState.bake none).2.money ≠ freshState.money := by
  constructor
  · rfl
  · norm_num [freshState, GameState.initState, GameState.base, GameState.initialRecipes,
      GameState.initialUpgrades, GameState.initialMilestones, GameState.bake,
      GameState.checkMilestones, GameState.milestoneDone, GameState.completeMilestone,
      findKey, setKey]

/-- C1 (amended): `Recipes.bakeRecipe` returns `false` and mutates nothing
when the recipe is absent or locked; `GameState.bake` returns `false` and
mutates nothing when the passed recipe is locked, but an absent recipe
argument is replaced by the cookie recipe (so it does not fail by itself). -/
theorem claim1_bake_failure (s : GameState) (rid : String) :
    (findKey rid s.recipes = none → Recipes.bakeRecipe s rid = (false, s)) ∧
    (∀ r, findKey rid s.recipes = some r → r.unlocked = false →
      Recipes.bakeRecipe s rid = (false, s) ∧ s.bake (some rid) = (false, s)) ∧
    s.bake none = s.bake (some "cookie") := by
  refine ⟨?_, ?_, rfl⟩
  · intro h
    simp [Recipes.bakeRecipe, h]
  · intro r h hu
    constructor
    · simp [Recipes.bakeRecipe, h, hu]
    · simp [GameState.bake, h, hu]

/-- C1 witness: the locked brownie recipe on a fresh state. -/
theorem claim1_witness :
    Recipes.bakeRecipe freshState "brownie" = (false, freshState) ∧
    freshState.bake (some "brownie") = (false, freshState) :=
  (claim1_bake_failure freshState "brownie").2.1 _ rfl rfl

/-! ## Claim C2 — save/load/restore round trip -/

/-- C2 (counterexample): the round trip does not reproduce `lastSaveTime`:
a fresh state has `lastSaveTime = 0`, but after saving at instant 99 and
restoring, the field holds 99 (the snapshot stores `Date.now()` there). -/
theorem claim2_counterexample :
    (SaveManager.restoreState freshState
        (SaveManager.load (some (SaveManager.save freshState 99)))).lastSaveTime ≠
      freshState.lastSaveTime := by
  norm_num [freshState, GameState.initState, GameState.base, SaveManager.restoreState,
    SaveManager.load, SaveManager.save]

/-- C2 (amended): restoring the loaded result of a save reproduces every
field of the model exactly — numeric fields, the recipes, upgrades and
milestones maps, `lastPlayTime`, `totalPlayTime`, `gameStartTime` —
except `lastSaveTime`, which becomes the instant at which the save was
written. -/
theorem claim2_roundtrip (m : GameState) (now : ℚ) :
    SaveManager.restoreState m (SaveManager.load (some (SaveManager.save m now))) =
      { m with lastSaveTime := now } := rfl

/-! ## Claim C8 — hireAutoBaker and the moneyPerSecond cache -/

/-- C8 (counterexample): the claim says a successful `hireAutoBaker`
leaves `moneyPerSecond` unchanged until the caller recomputes it; but
from a fresh state with `money = 50` (where `moneyPerSecond = 0`) the
hire succeeds and `moneyPerSecond` is already 5 afterwards. -/
theorem claim8_counterexample :
    (({ freshState with money := 50 } : GameState).hireAutoBaker).1 = true ∧
    (({ freshState with money := 50 } : GameState).hireAutoBaker).2.moneyPerSecond ≠
      ({ freshState with money := 50 } : GameState).moneyPerSecond := by
  constructor <;>
    norm_num [freshState, GameState.initState, GameState.base, GameState.initialRecipes,
      GameState.initialUpgrades, GameState.initialMilestones, GameState.hireAutoBaker,
      GameState.recalculateMoneyPerSecond, GameState.passiveProduction, jsCeil]

/-- C8 (amended): `hireAutoBaker` itself ends by calling
`recalculateMoneyPerSecond`, so after a successful hire the cached
`moneyPerSecond` already equals the passive-production formula of the
resulting state; no separate caller invocation is required. -/
theorem claim8_hire_recalculates (s : GameState) (h : ¬ s.money < s.autoBakerCost) :
    (s.hireAutoBaker).1 = true ∧
    (s.hireAutoBaker).2.moneyPerSecond =
      GameState.passiveProduction (s.hireAutoBaker).2.autoBakers
        (s.hireAutoBaker).2.recipes := by
  simp [GameState.hireAutoBaker, GameState.recalculateMoneyPerSecond, h]

/-- C8 witness: the fresh state with exactly the auto-baker cost. -/
theorem claim8_witness :
    ¬ ({ freshState with money := 50 } : GameState).money <
        ({ freshState with money := 50 } : GameState).autoBakerCost ∧
    (({ freshState with money := 50 } : GameState).hireAutoBaker).1 = true :=
  ⟨by norm_num [freshState, GameState.initState, GameState.base],
    (claim8_hire_recalculates { freshState with money := 50 }
      (by norm_num [freshState, GameState.initState, GameState.base])).1⟩

/-! ## Claim C4 — purchases never drive money negative -/

/-- C4: on any state with `money ≥ 0`, each purchase operation
(`purchaseUpgrade`, `upgradeRecipe`, `hireAutoBaker`) leaves
`money ≥ 0`, and each returns `false` without debiting when `money` is
below the respective cost. -/
theorem claim4_money_nonneg (s : GameState) (uid rid : String) (h : 0 ≤ s.money) :
    0 ≤ ((s.purchaseUpgrade uid).2).money ∧
    0 ≤ ((Recipes.upgradeRecipe s rid).2).money ∧
    0 ≤ ((s.hireAutoBaker).2).money ∧
    (∀ u, findKey uid s.upgrades = some u → s.money < u.currentCost →
      s.purchaseUpgrade uid = (false, s)) ∧
    (∀ r, findKey rid s.recipes = some r → r.unlocked = true →
      s.money < r.upgradeCost → Recipes.upgradeRecipe s rid = (false, s)) ∧
    (s.money < s.autoBakerCost → s.hireAutoBaker = (false, s)) := by
  refine ⟨?_, ?_, ?_, ?_, ?_, ?_⟩
  · unfold GameState.purchaseUpgrade
    cases hfk : findKey uid s.upgrades with
    | none => exact h
    | some u =>
        dsimp only
        split_ifs with h1 h2
        · exact h
        · exact h
        · unfold GameState.applyUpgradeBonus
          split_ifs <;> dsimp only <;> linarith
  · unfold Recipes.upgradeRecipe
    cases hfk : findKey rid s.recipes with
    | none => exact h
    | some r =>
        dsimp only
        split_ifs with h1 h2
        · exact h
        · exact h
        · dsimp only
          linarith
  · unfold GameState.hireAutoBaker
    split_ifs with h1
    · exact h
    · unfold GameState.recalculateMoneyPerSecond
      dsimp only
      linarith
  · intro u hfk hlt
    unfold GameState.purchaseUpgrade
    rw [hfk]
    dsimp only
    split_ifs with h1 <;> rfl
  · intro r hfk hu hlt
    unfold Recipes.upgradeRecipe
    rw [hfk]
    dsimp only
    split_ifs with h1 <;> rfl
  · intro hlt
    unfold GameState.hireAutoBaker
    rw [if_pos hlt]

/-- C4 witness: the fresh state (money 10), the `betterOven` upgrade and
the cookie recipe. -/
theorem claim4_witness :
    (0 : ℚ) ≤ freshState.money ∧
    0 ≤ ((freshState.purchaseUpgrade "betterOven").2).money ∧
    0 ≤ ((Recipes.upgradeRecipe freshState "cookie").2).money ∧
    0 ≤ ((freshState.hireAutoBaker).2).money :=
  have h : (0 : ℚ) ≤ freshState.money := by
    norm_num [freshState, GameState.initState, GameState.base]
  have hc := claim4_money_nonneg freshState "betterOven" "cookie" h
  ⟨h, hc.1, hc.2.1, hc.2.2.1⟩

/-! ## Claim C5 — repeated hireAutoBaker -/

theorem hireN_autoBakers_cost (s : GameState) (k : ℕ) (hok : s.hiresOk k = true) :
    (s.hireN k).autoBakers = s.autoBakers + k ∧
    (s.hireN k).autoBakerCost = costIterFrom s.autoBakerCost k := by
  induction k with
  | zero => simp [GameState.hireN, costIterFrom]
  | succ k ih =>
      rw [GameState.hiresOk, Bool.and_eq_true] at hok
      obtain ⟨ihb, ihc⟩ := ih hok.1
      have hcond : ¬ (s.hireN k).money < (s.hireN k).autoBakerCost := by
        intro hc
        rw [GameState.hireAutoBaker, if_pos hc] at hok
        exact Bool.false_ne_true hok.2
      constructor
      · show ((s.hireN k).hireAutoBaker).2.autoBakers = s.autoBakers + (k + 1)
        rw [GameState.hireAutoBaker, if_neg hcond]
        simp [GameState.recalculateMoneyPerSecond, ihb]
        omega
      · show ((s.hireN k).hireAutoBaker).2.autoBakerCost = costIterFrom s.autoBakerCost (k + 1)
        rw [GameState.hireAutoBaker, if_neg hcond]
        simp [GameState.recalculateMoneyPerSecond, costIterFrom, ihc]

/-- C5 (counterexample): from a fresh state with ample money, three
successful hires leave `autoBakerCost = 78`, while the claim's closed form
`ceil(50 * 1.15^3)` is 77 — iterated ceiling compounds differently from
the ceiling of the power. -/
theorem claim5_counterexample :
    ({ freshState with money := 10000 } : GameState).hiresOk 3 = true ∧
    (({ freshState with money := 10000 } : GameState).hireN 3).autoBakers = 3 ∧
    (({ freshState with money := 10000 } : GameState).hireN 3).autoBakerCost ≠
      ((jsCeil ((50 : ℚ) * (23 / 20) ^ 3) : ℤ) : ℚ) := by
  refine ⟨?_, ?_, ?_⟩ <;>
    norm_num [freshState, GameState.initState, GameState.base, GameState.initialRecipes,
      GameState.initialUpgrades, GameState.initialMilestones, GameState.hiresOk,
      GameState.hireN, GameState.hireAutoBaker, GameState.recalculateMoneyPerSecond,
      GameState.passiveProduction, jsCeil]

/-- C5 (amended): starting from `autoBakers = 0`, `autoBakerCost = 50`,
after `k` successful hires `autoBakers = k` and `autoBakerCost` is the
`k`-fold `cost ↦ ceil(cost * 1.15)` compounding of 50 (58, 67, 78, …) —
which agrees with `ceil(50 * 1.15^k)` for `k ≤ 2` but not beyond. -/
theorem claim5_hire_iteration (s : GameState) (k : ℕ)
    (h0 : s.autoBakers = 0) (hc : s.autoBakerCost = 50)
    (hok : s.hiresOk k = true) :
    (s.hireN k).autoBakers = k ∧ (s.hireN k).autoBakerCost = costIterFrom 50 k := by
  obtain ⟨hb, hcc⟩ := hireN_autoBakers_cost s k hok
  rw [h0] at hb
  rw [hc] at hcc
  exact ⟨by simpa using hb, hcc⟩

/-- C5 witness: the spec's own scenario — one hire from `money = 50` —
gives `autoBakers = 1` and `autoBakerCost = costIterFrom 50 1 = 58`. -/
theorem claim5_witness :
    ({ freshState with money := 50 } : GameState).hiresOk 1 = true ∧
    (({ freshState with money := 50 } : GameState).hireN 1).autoBakers = 1 ∧
    (({ freshState with money := 50 } : GameState).hireN 1).autoBakerCost =
      costIterFrom 50 1 :=
  have hok : ({ freshState with money := 50 } : GameState).hiresOk 1 = true := by
    norm_num [freshState, GameState.initState, GameState.base, GameState.hiresOk,
      GameState.hireN, GameState.hireAutoBaker]
  have h := claim5_hire_iteration { freshState with money := 50 } 1 rfl rfl hok
  ⟨hok, h.1, h.2⟩

/-! ## Claim C3 — offline progress beyond the cap -/

/-- C3: past the 7-day cap, offline money is credited from the capped
time — `floor(totalIncome * MAX_OFFLINE_TIME)` added to both `money` and
`totalMoneyEarned` (and reported as `moneyGained`) — while the
`totalBaked` estimate `floor(autoBakers*5 * secondsElapsed / 5)`
(reported as `itemsBaked`) still uses the uncapped elapsed time. -/
theorem claim3_offline_cap_asymmetry (s : GameState) (secs : ℚ)
    (h : OfflineProgress.MAX_OFFLINE_TIME < secs) :
    ((OfflineProgress.applyOfflineProgress s secs).2).money =
      s.money + ((jsFloor (((s.autoBakers : ℚ) * 5 +
        OfflineProgress.recipeIncomeSum s.recipes) *
        OfflineProgress.MAX_OFFLINE_TIME) : ℤ) : ℚ) ∧
    ((OfflineProgress.applyOfflineProgress s secs).2).totalMoneyEarned =
      s.totalMoneyEarned + ((jsFloor (((s.autoBakers : ℚ) * 5 +
        OfflineProgress.recipeIncomeSum s.recipes) *
        OfflineProgress.MAX_OFFLINE_TIME) : ℤ) : ℚ) ∧
    ((OfflineProgress.applyOfflineProgress s secs).2).totalBaked =
      s.totalBaked + (jsFloor ((s.autoBakers : ℚ) * 5 * secs / 5)).toNat ∧
    (OfflineProgress.applyOfflineProgress s secs).1.moneyGained =
      jsFloor (((s.autoBakers : ℚ) * 5 + OfflineProgress.recipeIncomeSum s.recipes) *
        OfflineProgress.MAX_OFFLINE_TIME) ∧
    (OfflineProgress.applyOfflineProgress s secs).1.itemsBaked =
      jsFloor ((s.autoBakers : ℚ) * 5 * secs / 5) := by
  have hmaxpos : (0 : ℚ) < OfflineProgress.MAX_OFFLINE_TIME := by
    norm_num [OfflineProgress.MAX_OFFLINE_TIME]
  have hpos : ¬ secs ≤ 0 := not_le.mpr (lt_trans hmaxpos h)
  have hmin : min secs OfflineProgress.MAX_OFFLINE_TIME =
      OfflineProgress.MAX_OFFLINE_TIME := min_eq_right (le_of_lt h)
  have hitems : (if (0 : ℚ) < (s.autoBakers : ℚ) * 5 then
      jsFloor ((s.autoBakers : ℚ) * 5 * secs / 5) else (0 : ℤ)) =
      jsFloor ((s.autoBakers : ℚ) * 5 * secs / 5) := by
    by_cases hb : (0 : ℚ) < (s.autoBakers : ℚ) * 5
    · rw [if_pos hb]
    · rw [if_neg hb]
      have hz : (s.autoBakers : ℚ) = 0 := by
        have h0 : (0 : ℚ) ≤ (s.autoBakers : ℚ) := by positivity
        nlinarith [not_lt.mp hb]
      simp [hz, jsFloor]
  simp only [OfflineProgress.applyOfflineProgress,
    OfflineProgress.calculateOfflineEarnings, hmin, if_neg hpos]
  refine ⟨trivial, trivial, ?_, trivial, hitems⟩
  rw [hitems]

/-- C3 witness: two auto-bakers, nine days offline (777600 s, past the
604800 s cap): the capped income and the uncapped bake estimate. -/
theorem claim3_witness :
    OfflineProgress.MAX_OFFLINE_TIME < (777600 : ℚ) ∧
    ((OfflineProgress.applyOfflineProgress
        { freshState with autoBakers := 2 } 777600).2).money =
      ({ freshState with autoBakers := 2 } : GameState).money +
        ((jsFloor ((((({ freshState with autoBakers := 2 } : GameState).autoBakers : ℕ) : ℚ) * 5 +
          OfflineProgress.recipeIncomeSum
            ({ freshState with autoBakers := 2 } : GameState).recipes) *
          OfflineProgress.MAX_OFFLINE_TIME) : ℤ) : ℚ) ∧
    (OfflineProgress.applyOfflineProgress
        { freshState with autoBakers := 2 } 777600).1.itemsBaked =
      jsFloor (((({ freshState with autoBakers := 2 } : GameState).autoBakers : ℕ) : ℚ) *
        5 * 777600 / 5) :=
  have h := claim3_offline_cap_asymmetry { freshState with autoBakers := 2 } 777600
    (by norm_num [OfflineProgress.MAX_OFFLINE_TIME])
  ⟨by norm_num [OfflineProgress.MAX_OFFLINE_TIME], h.1, h.2.2.2.2⟩

/-! ## Claim C6 — successful purchaseUpgrade -/

/-- C6: when the upgrade exists, is below `maxLevel`, and is affordable,
`purchaseUpgrade` debits exactly `currentCost`, increments the level,
recomputes `currentCost = ceil(baseCost * 1.1^newLevel)`, and for a
`production` upgrade recomputes every recipe's `currentProduction` as
`ceil(baseProduction * bonus^newLevel)` from the upgrade's own level. -/
theorem claim6_purchase_upgrade (s : GameState) (uid : String) (u : Upgrade)
    (hfk : findKey uid s.upgrades = some u) (hlv : u.level < u.maxLevel)
    (hm : ¬ s.money < u.currentCost) :
    (s.purchaseUpgrade uid).1 = true ∧
    (s.purchaseUpgrade uid).2.money = s.money - u.currentCost ∧
    findKey uid (s.purchaseUpgrade uid).2.upgrades =
      some { u with
        level := u.level + 1
        currentCost := ((jsCeil (u.baseCost * (11 / 10 : ℚ) ^ (u.level + 1)) : ℤ) : ℚ) } ∧
    (u.type = UpgradeType.production →
      ∀ k, findKey k (s.purchaseUpgrade uid).2.recipes =
        (findKey k s.recipes).map (fun r =>
          { r with currentProduction :=
              ((jsCeil (r.baseProduction * u.bonus ^ (u.level + 1)) : ℤ) : ℚ) })) := by
  have hnl : ¬ u.maxLevel ≤ u.level := not_le.mpr hlv
  unfold GameState.purchaseUpgrade
  rw [hfk]
  dsimp only
  rw [if_neg hnl, if_neg hm]
  refine ⟨rfl, ?_, ?_, ?_⟩
  · unfold GameState.applyUpgradeBonus
    split_ifs <;> rfl
  · unfold GameState.applyUpgradeBonus
    split_ifs <;> simp [findKey_setKey_self, hfk]
  · intro htype k
    unfold GameState.applyUpgradeBonus
    simp only [htype, if_pos]
    exact findKey_mapVal s.recipes k (fun r =>
      { r with currentProduction :=
          ((jsCeil (r.baseProduction * u.bonus ^ (u.level + 1)) : ℤ) : ℚ) })

/-- C6 witness: the spec's scenario — `betterOven` bought with exactly
100 money on a fresh state. -/
theorem claim6_witness :
    (({ freshState with money := 100 } : GameState).purchaseUpgrade "betterOven").1 = true ∧
    (({ freshState with money := 100 } : GameState).purchaseUpgrade "betterOven").2.money =
      100 - 100 :=
  have h := claim6_purchase_upgrade { freshState with money := 100 } "betterOven"
    { id := "betterOven", name := "Better Oven", icon := "🔥", level := 0, maxLevel := 10,
      baseCost := 100, currentCost := 100, description := "+5% production per level",
      bonus := 21 / 20, type := UpgradeType.production }
    rfl (by norm_num)
    (by norm_num [freshState, GameState.initState, GameState.base])
  ⟨h.1, h.2.1⟩

/-! ## Claim C7 — threshold milestones -/

theorem checkMilestones_firstBake_reached (s : GameState) (h : 1 ≤ s.totalBaked) :
    (s.checkMilestones).milestoneDone "firstBake" = true := by
  by_cases hd : s.milestoneDone "firstBake" = true
  · exact checkMilestones_done_mono s hd
  · have hd2 : s.milestoneDone "firstBake" = false := by simpa using hd
    simp only [GameState.checkMilestones, if_pos (And.intro h hd2)]
    split_ifs <;>
      (repeat' first
        | exact completeMilestone_milestoneDone_self _ "firstBake"
        | apply completeMilestone_milestoneDone_mono)

theorem checkMilestones_hundredBakes_reached (s : GameState) (h : 100 ≤ s.totalBaked) :
    (s.checkMilestones).milestoneDone "hundredBakes" = true := by
  by_cases hd : s.milestoneDone "hundredBakes" = true
  · exact checkMilestones_done_mono s hd
  · have hd2 : s.milestoneDone "hundredBakes" = false := by simpa using hd
    by_cases hc1 : 1 ≤ s.totalBaked ∧ s.milestoneDone "firstBake" = false
    · simp only [GameState.checkMilestones, if_pos hc1]
      have hcond : 100 ≤ (s.completeMilestone "firstBake").totalBaked ∧
          (s.completeMilestone "firstBake").milestoneDone "hundredBakes" = false := by
        constructor
        · rw [completeMilestone_totalBaked]
          exact h
        · rw [completeMilestone_milestoneDone_ne (by decide)]
          exact hd2
      simp only [if_pos hcond]
      split_ifs <;>
        (repeat' first
          | exact completeMilestone_milestoneDone_self _ "hundredBakes"
          | apply completeMilestone_milestoneDone_mono)
    · simp only [GameState.checkMilestones, if_neg hc1]
      simp only [if_pos (And.intro h hd2)]
      split_ifs <;>
        (repeat' first
          | exact completeMilestone_milestoneDone_self _ "hundredBakes"
          | apply completeMilestone_milestoneDone_mono)

theorem checkMilestones_thousandDollars_reached (s : GameState)
    (h : 1000 ≤ s.totalMoneyEarned) :
    (s.checkMilestones).milestoneDone "thousandDollars" = true := by
  by_cases hd : s.milestoneDone "thousandDollars" = true
  · exact checkMilestones_done_mono s hd
  · have hd2 : s.milestoneDone "thousandDollars" = false := by simpa using hd
    by_cases hc1 : 1 ≤ s.totalBaked ∧ s.milestoneDone "firstBake" = false
    · simp only [GameState.checkMilestones, if_pos hc1]
      by_cases hc2 : 100 ≤ (s.completeMilestone "firstBake").totalBaked ∧
          (s.completeMilestone "firstBake").milestoneDone "hundredBakes" = false
      · simp only [if_pos hc2]
        have hcond :
            1000 ≤ ((s.completeMilestone "firstBake").completeMilestone
              "hundredBakes").totalMoneyEarned ∧
            ((s.completeMilestone "firstBake").completeMilestone
              "hundredBakes").milestoneDone "thousandDollars" = false := by
          constructor
          · exact le_trans (le_trans h (completeMilestone_totalMoneyEarned_le s _))
              (completeMilestone_totalMoneyEarned_le _ _)
          · rw [completeMilestone_milestoneDone_ne (by decide),
              completeMilestone_milestoneDone_ne (by decide)]
            exact hd2
        simp only [if_pos hcond]
        exact completeMilestone_milestoneDone_self _ "thousandDollars"
      · simp only [if_neg hc2]
        have hcond : 1000 ≤ (s.completeMilestone "firstBake").totalMoneyEarned ∧
            (s.completeMilestone "firstBake").milestoneDone "thousandDollars" = false := by
          constructor
          · exact le_trans h (completeMilestone_totalMoneyEarned_le s _)
          · rw [completeMilestone_milestoneDone_ne (by decide)]
            exact hd2
        simp only [if_pos hcond]
        exact completeMilestone_milestoneDone_self _ "thousandDollars"
    · simp only [GameState.checkMilestones, if_neg hc1]
      by_cases hc2 : 100 ≤ s.totalBaked ∧ s.milestoneDone "hundredBakes" = false
      · simp only [if_pos hc2]
        have hcond : 1000 ≤ (s.completeMilestone "hundredBakes").totalMoneyEarned ∧
            (s.completeMilestone "hundredBakes").milestoneDone "thousandDollars" = false := by
          constructor
          · exact le_trans h (completeMilestone_totalMoneyEarned_le s _)
          · rw [completeMilestone_milestoneDone_ne (by decide)]
            exact hd2
        simp only [if_pos hcond]
        exact completeMilestone_milestoneDone_self _ "thousandDollars"
      · simp only [if_neg hc2]
        simp only [if_pos (And.intro h hd2)]
        exact completeMilestone_milestoneDone_self _ "thousandDollars"

theorem checkMilestones_all_done (s : GameState)
    (h1 : s.milestoneDone "firstBake" = true)
    (h2 : s.milestoneDone "hundredBakes" = true)
    (h3 : s.milestoneDone "thousandDollars" = true) :
    s.checkMilestones = s := by
  simp [GameState.checkMilestones, h1, h2, h3]

theorem not_newly {x y : Bool} (h : x = y) : ¬ (x = false ∧ y = true) := by
  rintro ⟨h1, h2⟩
  rw [h1, h2] at h
  exact Bool.false_ne_true h

theorem completeMilestone_money_bonus (s : GameState) (mid : String)
    (h : s.milestoneDone mid = false) :
    (s.completeMilestone mid).money = s.money + 50 ∧
    (s.completeMilestone mid).totalMoneyEarned = s.totalMoneyEarned + 50 := by
  unfold GameState.milestoneDone at h
  unfold GameState.completeMilestone
  cases hfk : findKey mid s.milestones with
  | none =>
      rw [hfk] at h
      simp at h
  | some m =>
      simp

/-- Money accounting of one `checkMilestones` call: `money` and
`totalMoneyEarned` each grow by exactly 50 per milestone that this call
newly completes (was incomplete before, completed after) — so an
already-completed milestone never yields a second bonus. -/
theorem checkMilestones_money_grant (s : GameState) :
    (s.checkMilestones).money = s.money +
      50 * ((if s.milestoneDone "firstBake" = false ∧
            (s.checkMilestones).milestoneDone "firstBake" = true then (1 : ℚ) else 0) +
        (if s.milestoneDone "hundredBakes" = false ∧
            (s.checkMilestones).milestoneDone "hundredBakes" = true then (1 : ℚ) else 0) +
        (if s.milestoneDone "thousandDollars" = false ∧
            (s.checkMilestones).milestoneDone "thousandDollars" = true then (1 : ℚ) else 0)) ∧
    (s.checkMilestones).totalMoneyEarned = s.totalMoneyEarned +
      50 * ((if s.milestoneDone "firstBake" = false ∧
            (s.checkMilestones).milestoneDone "firstBake" = true then (1 : ℚ) else 0) +
        (if s.milestoneDone "hundredBakes" = false ∧
            (s.checkMilestones).milestoneDone "hundredBakes" = true then (1 : ℚ) else 0) +
        (if s.milestoneDone "thousandDollars" = false ∧
            (s.checkMilestones).milestoneDone "thousandDollars" = true then (1 : ℚ) else 0)) := by
  by_cases hc1 : 1 ≤ s.totalBaked ∧ s.milestoneDone "firstBake" = false
  · simp only [GameState.checkMilestones, if_pos hc1]
    by_cases hc2 : 100 ≤ (s.completeMilestone "firstBake").totalBaked ∧
        (s.completeMilestone "firstBake").milestoneDone "hundredBakes" = false
    · simp only [if_pos hc2]
      by_cases hc3 : 1000 ≤ ((s.completeMilestone "firstBake").completeMilestone
            "hundredBakes").totalMoneyEarned ∧
          ((s.completeMilestone "firstBake").completeMilestone
            "hundredBakes").milestoneDone "thousandDollars" = false
      · simp only [if_pos hc3]
        have h1 := completeMilestone_money_bonus s "firstBake" hc1.2
        have h2 := completeMilestone_money_bonus _ "hundredBakes" hc2.2
        have h3 := completeMilestone_money_bonus _ "thousandDollars" hc3.2
        have dF : ((((s.completeMilestone "firstBake").completeMilestone
            "hundredBakes").completeMilestone "thousandDollars").milestoneDone
            "firstBake") = true := by
          rw [completeMilestone_milestoneDone_ne (by decide),
            completeMilestone_milestoneDone_ne (by decide)]
          exact completeMilestone_milestoneDone_self s "firstBake"
        have dH : ((((s.completeMilestone "firstBake").completeMilestone
            "hundredBakes").completeMilestone "thousandDollars").milestoneDone
            "hundredBakes") = true := by
          rw [completeMilestone_milestoneDone_ne (by decide)]
          exact completeMilestone_milestoneDone_self _ "hundredBakes"
        have dT : ((((s.completeMilestone "firstBake").completeMilestone
            "hundredBakes").completeMilestone "thousandDollars").milestoneDone
            "thousandDollars") = true :=
          completeMilestone_milestoneDone_self _ "thousandDollars"
        have bH : s.milestoneDone "hundredBakes" = false := by
          have hx := hc2.2
          rwa [completeMilestone_milestoneDone_ne (by decide)] at hx
        have bT : s.milestoneDone "thousandDollars" = false := by
          have hx := hc3.2
          rwa [completeMilestone_milestoneDone_ne (by decide),
            completeMilestone_milestoneDone_ne (by decide)] at hx
        rw [if_pos ⟨hc1.2, dF⟩, if_pos ⟨bH, dH⟩, if_pos ⟨bT, dT⟩]
        constructor
        · rw [h3.1, h2.1, h1.1]
          ring
        · rw [h3.2, h2.2, h1.2]
          ring
      · simp only [if_neg hc3]
        have h1 := completeMilestone_money_bonus s "firstBake" hc1.2
        have h2 := completeMilestone_money_bonus _ "hundredBakes" hc2.2
        have dF : (((s.completeMilestone "firstBake").completeMilestone
            "hundredBakes").milestoneDone "firstBake") = true := by
          rw [completeMilestone_milestoneDone_ne (by decide)]
          exact completeMilestone_milestoneDone_self s "firstBake"
        have dH : (((s.completeMilestone "firstBake").completeMilestone
            "hundredBakes").milestoneDone "hundredBakes") = true :=
          completeMilestone_milestoneDone_self _ "hundredBakes"
        have bH : s.milestoneDone "hundredBakes" = false := by
          have hx := hc2.2
          rwa [completeMilestone_milestoneDone_ne (by decide)] at hx
        have eqT : (((s.completeMilestone "firstBake").completeMilestone
            "hundredBakes").milestoneDone "thousandDollars") =
            s.milestoneDone "thousandDollars" := by
          rw [completeMilestone_milestoneDone_ne (by decide),
            completeMilestone_milestoneDone_ne (by decide)]
        rw [if_pos ⟨hc1.2, dF⟩, if_pos ⟨bH, dH⟩, if_neg (not_newly eqT.symm)]
        constructor
        · rw [h2.1, h1.1]
          ring
        · rw [h2.2, h1.2]
          ring
    · simp only [if_neg hc2]
      by_cases hc3 : 1000 ≤ (s.completeMilestone "firstBake").totalMoneyEarned ∧
          (s.completeMilestone "firstBake").milestoneDone "thousandDollars" = false
      · simp only [if_pos hc3]
        have h1 := completeMilestone_money_bonus s "firstBake" hc1.2
        have h3 := completeMilestone_money_bonus _ "thousandDollars" hc3.2
        have dF : (((s.completeMilestone "firstBake").completeMilestone
            "thousandDollars").milestoneDone "firstBake") = true := by
          rw [completeMilestone_milestoneDone_ne (by decide)]
          exact completeMilestone_milestoneDone_self s "firstBake"
        have dT : (((s.completeMilestone "firstBake").completeMilestone
            "thousandDollars").milestoneDone "thousandDollars") = true :=
          completeMilestone_milestoneDone_self _ "thousandDollars"
        have bT : s.milestoneDone "thousandDollars" = false := by
          have hx := hc3.2
          rwa [completeMilestone_milestoneDone_ne (by decide)] at hx
        have eqH : (((s.completeMilestone "firstBake").completeMilestone
            "thousandDollars").milestoneDone "hundredBakes") =
            s.milestoneDone "hundredBakes" := by
          rw [completeMilestone_milestoneDone_ne (by decide),
            completeMilestone_milestoneDone_ne (by decide)]
        rw [if_pos ⟨hc1.2, dF⟩, if_neg (not_newly eqH.symm), if_pos ⟨bT, dT⟩]
        constructor
        · rw [h3.1, h1.1]
          ring
        · rw [h3.2, h1.2]
          ring
      · simp only [if_neg hc3]
        have h1 := completeMilestone_money_bonus s "firstBake" hc1.2
        have dF : ((s.completeMilestone "firstBake").milestoneDone "firstBake") = true :=
          completeMilestone_milestoneDone_self s "firstBake"
        have eqH : ((s.completeMilestone "firstBake").milestoneDone "hundredBakes") =
            s.milestoneDone "hundredBakes" :=
          completeMilestone_milestoneDone_ne (by decide) s
        have eqT : ((s.completeMilestone "firstBake").milestoneDone "thousandDollars") =
            s.milestoneDone "thousandDollars" :=
          completeMilestone_milestoneDone_ne (by decide) s
        rw [if_pos ⟨hc1.2, dF⟩, if_neg (not_newly eqH.symm), if_neg (not_newly eqT.symm)]
        constructor
        · rw [h1.1]
          ring
        · rw [h1.2]
          ring
  · simp only [GameState.checkMilestones, if_neg hc1]
    by_cases hc2 : 100 ≤ s.totalBaked ∧ s.milestoneDone "hundredBakes" = false
    · simp only [if_pos hc2]
      by_cases hc3 : 1000 ≤ (s.completeMilestone "hundredBakes").totalMoneyEarned ∧
          (s.completeMilestone "hundredBakes").milestoneDone "thousandDollars" = false
      · simp only [if_pos hc3]
        have h2 := completeMilestone_money_bonus s "hundredBakes" hc2.2
        have h3 := completeMilestone_money_bonus _ "thousandDollars" hc3.2
        have dH : (((s.completeMilestone "hundredBakes").completeMilestone
            "thousandDollars").milestoneDone "hundredBakes") = true := by
          rw [completeMilestone_milestoneDone_ne (by decide)]
          exact completeMilestone_milestoneDone_self s "hundredBakes"
        have dT : (((s.completeMilestone "hundredBakes").completeMilestone
            "thousandDollars").milestoneDone "thousandDollars") = true :=
          completeMilestone_milestoneDone_self _ "thousandDollars"
        have bT : s.milestoneDone "thousandDollars" = false := by
          have hx := hc3.2
          rwa [completeMilestone_milestoneDone_ne (by decide)] at hx
        have eqF : (((s.completeMilestone "hundredBakes").completeMilestone
            "thousandDollars").milestoneDone "firstBake") =
            s.milestoneDone "firstBake" := by
          rw [completeMilestone_milestoneDone_ne (by decide),
            completeMilestone_milestoneDone_ne (by decide)]
        rw [if_neg (not_newly eqF.symm), if_pos ⟨hc2.2, dH⟩, if_pos ⟨bT, dT⟩]
        constructor
        · rw [h3.1, h2.1]
          ring
        · rw [h3.2, h2.2]
          ring
      · simp only [if_neg hc3]
        have h2 := completeMilestone_money_bonus s "hundredBakes" hc2.2
        have dH : ((s.completeMilestone "hundredBakes").milestoneDone "hundredBakes") = true :=
          completeMilestone_milestoneDone_self s "hundredBakes"
        have eqF : ((s.completeMilestone "hundredBakes").milestoneDone "firstBake") =
            s.milestoneDone "firstBake" :=
          completeMilestone_milestoneDone_ne (by decide) s
        have eqT : ((s.completeMilestone "hundredBakes").milestoneDone "thousandDollars") =
            s.milestoneDone "thousandDollars" :=
          completeMilestone_milestoneDone_ne (by decide) s
        rw [if_neg (not_newly eqF.symm), if_pos ⟨hc2.2, dH⟩, if_neg (not_newly eqT.symm)]
        constructor
        · rw [h2.1]
          ring
        · rw [h2.2]
          ring
    · simp only [if_neg hc2]
      by_cases hc3 : 1000 ≤ s.totalMoneyEarned ∧
          s.milestoneDone "thousandDollars" = false
      · simp only [if_pos hc3]
        have h3 := completeMilestone_money_bonus s "thousandDollars" hc3.2
        have dT : ((s.completeMilestone "thousandDollars").milestoneDone
            "thousandDollars") = true :=
          completeMilestone_milestoneDone_self s "thousandDollars"
        have eqF : ((s.completeMilestone "thousandDollars").milestoneDone "firstBake") =
            s.milestoneDone "firstBake" :=
          completeMilestone_milestoneDone_ne (by decide) s
        have eqH : ((s.completeMilestone "thousandDollars").milestoneDone "hundredBakes") =
            s.milestoneDone "hundredBakes" :=
          completeMilestone_milestoneDone_ne (by decide) s
        rw [if_neg (not_newly eqF.symm), if_neg (not_newly eqH.symm), if_pos ⟨hc3.2, dT⟩]
        constructor
        · rw [h3.1]
          ring
        · rw [h3.2]
          ring
      · simp only [if_neg hc3]
        rw [if_neg (not_newly (Eq.refl (s.milestoneDone "firstBake"))),
          if_neg (not_newly (Eq.refl (s.milestoneDone "hundredBakes"))),
          if_neg (not_newly (Eq.refl (s.milestoneDone "thousandDollars")))]
        constructor
        · ring
        · ring

/-- C7: each threshold milestone is marked completed when its threshold
is reached; completed flags never revert; `money` and `totalMoneyEarned`
each grow by exactly +50 per milestone newly completed by the call (so an
already-completed milestone never grants a second bonus, from any state);
when all three are already completed `checkMilestones` mutates nothing;
and on a fresh model one cookie bake gives `totalBaked = 1`, the
`firstBake` milestone completed, and `money = 61`
(10 starting + 1 production + 50 bonus). -/
theorem claim7_milestones (s : GameState) :
    (1 ≤ s.totalBaked → (s.checkMilestones).milestoneDone "firstBake" = true) ∧
    (100 ≤ s.totalBaked → (s.checkMilestones).milestoneDone "hundredBakes" = true) ∧
    (1000 ≤ s.totalMoneyEarned →
      (s.checkMilestones).milestoneDone "thousandDollars" = true) ∧
    (s.milestoneDone "firstBake" = true → s.milestoneDone "hundredBakes" = true →
      s.milestoneDone "thousandDollars" = true → s.checkMilestones = s) ∧
    ((freshState.bake (some "cookie")).1 = true ∧
      (freshState.bake (some "cookie")).2.totalBaked = 1 ∧
      (freshState.bake (some "cookie")).2.milestoneDone "firstBake" = true ∧
      (freshState.bake (some "cookie")).2.money = 61) ∧
    (∀ mid, s.milestoneDone mid = true →
      (s.checkMilestones).milestoneDone mid = true) ∧
    ((s.checkMilestones).money = s.money +
      50 * ((if s.milestoneDone "firstBake" = false ∧
            (s.checkMilestones).milestoneDone "firstBake" = true then (1 : ℚ) else 0) +
        (if s.milestoneDone "hundredBakes" = false ∧
            (s.checkMilestones).milestoneDone "hundredBakes" = true then (1 : ℚ) else 0) +
        (if s.milestoneDone "thousandDollars" = false ∧
            (s.checkMilestones).milestoneDone "thousandDollars" = true then (1 : ℚ) else 0)) ∧
    (s.checkMilestones).totalMoneyEarned = s.totalMoneyEarned +
      50 * ((if s.milestoneDone "firstBake" = false ∧
            (s.checkMilestones).milestoneDone "firstBake" = true then (1 : ℚ) else 0) +
        (if s.milestoneDone "hundredBakes" = false ∧
            (s.checkMilestones).milestoneDone "hundredBakes" = true then (1 : ℚ) else 0) +
        (if s.milestoneDone "thousandDollars" = false ∧
            (s.checkMilestones).milestoneDone "thousandDollars" = true then (1 : ℚ) else 0))) := by
  refine ⟨checkMilestones_firstBake_reached s, checkMilestones_hundredBakes_reached s,
    checkMilestones_thousandDollars_reached s, checkMilestones_all_done s,
    ⟨?_, ?_, ?_, ?_⟩, fun mid hm => checkMilestones_done_mono s hm,
    checkMilestones_money_grant s⟩ <;>
    norm_num [freshState, GameState.initState, GameState.base, GameState.initialRecipes,
      GameState.initialUpgrades, GameState.initialMilestones, GameState.bake,
      GameState.checkMilestones, GameState.milestoneDone, GameState.completeMilestone,
      findKey, setKey]

/-- C7 witness: a fresh state that has one bake recorded. -/
theorem claim7_witness :
    (({ freshState with totalBaked := 1 } : GameState).checkMilestones).milestoneDone
      "firstBake" = true :=
  (claim7_milestones { freshState with totalBaked := 1 }).1 (by decide)

/-! ## Claim C9 — the allRecipesUnlocked milestone is unreachable -/

theorem applyOp_allRecipes_frame (s : GameState) (o : Op) :
    findKey "allRecipesUnlocked" (applyOp s o).milestones =
      findKey "allRecipesUnlocked" s.milestones := by
  cases o with
  | bake arg =>
      show findKey _ ((s.bake arg).2).milestones = _
      simp only [GameState.bake]
      cases hfk : findKey (arg.getD "cookie") s.recipes with
      | none => rfl
      | some r =>
          dsimp only
          split_ifs with hu
          · rfl
          · exact checkMilestones_findKey_other _ (by decide) (by decide) (by decide)
  | unlockRecipe rid =>
      show findKey _ (s.unlockRecipe rid).milestones = _
      unfold GameState.unlockRecipe
      cases hfk : findKey rid s.recipes <;> rfl
  | purchaseUpgrade uid =>
      show findKey _ ((s.purchaseUpgrade uid).2).milestones = _
      unfold GameState.purchaseUpgrade
      cases hfk : findKey uid s.upgrades with
      | none => rfl
      | some u =>
          dsimp only
          split_ifs <;> first
            | rfl
            | (unfold GameState.applyUpgradeBonus; split_ifs <;> rfl)
  | upgradeRecipe rid =>
      show findKey _ ((Recipes.upgradeRecipe s rid).2).milestones = _
      unfold Recipes.upgradeRecipe
      cases hfk : findKey rid s.recipes with
      | none => rfl
      | some r =>
          dsimp only
          split_ifs <;> rfl
  | hireAutoBaker =>
      show findKey _ ((s.hireAutoBaker).2).milestones = _
      unfold GameState.hireAutoBaker
      split_ifs <;> rfl
  | tick =>
      show findKey _ (OfflineProgress.tick s).milestones = _
      simp only [OfflineProgress.tick]
      split_ifs <;> rfl
  | applyOfflineProgress secs =>
      show findKey _ ((OfflineProgress.applyOfflineProgress s secs).2).milestones = _
      unfold OfflineProgress.applyOfflineProgress
      split_ifs <;> rfl
  | checkMilestones =>
      exact checkMilestones_findKey_other _ (by decide) (by decide) (by decide)

/-- C9: no sequence of core operations (`bake`, `unlockRecipe`,
`purchaseUpgrade`, `upgradeRecipe`, `hireAutoBaker`, `tick`,
`applyOfflineProgress`, `checkMilestones`) ever touches the
`allRecipesUnlocked` milestone entry: its binding — in particular its
`completed` flag — is exactly what it was in the starting state, so it
stays `false` forever once `false`. -/
theorem claim9_allRecipes_never_completed (s : GameState) (ops : List Op) :
    findKey "allRecipesUnlocked" (runOps s ops).milestones =
      findKey "allRecipesUnlocked" s.milestones ∧
    (s.milestoneDone "allRecipesUnlocked" = false →
      (runOps s ops).milestoneDone "allRecipesUnlocked" = false) := by
  have hframe : ∀ t s0, findKey "allRecipesUnlocked" (runOps s0 t).milestones =
      findKey "allRecipesUnlocked" s0.milestones := by
    intro t
    induction t with
    | nil => intro s0; rfl
    | cons o t2 ih =>
        intro s0
        show findKey _ (runOps (applyOp s0 o) t2).milestones = _
        rw [ih (applyOp s0 o), applyOp_allRecipes_frame]
  refine ⟨hframe ops s, ?_⟩
  intro hdone
  unfold GameState.milestoneDone at hdone ⊢
  rw [hframe ops s]
  exact hdone

/-- C9 witness: a mixed operation sequence on the fresh state leaves the
`allRecipesUnlocked` milestone incomplete. -/
theorem claim9_witness :
    (runOps freshState [Op.bake (some "cookie"), Op.unlockRecipe "brownie",
      Op.hireAutoBaker, Op.tick, Op.checkMilestones]).milestoneDone
      "allRecipesUnlocked" = false :=
  (claim9_allRecipes_never_completed freshState
    [Op.bake (some "cookie"), Op.unlockRecipe "brownie",
      Op.hireAutoBaker, Op.tick, Op.checkMilestones]).2 rfl

/-! ## Claim C10 — bakeRecipe never evaluates milestones -/

/-- C10: a successful `Recipes.bakeRecipe` leaves the milestones map —
every `completed` flag — untouched and credits exactly
`currentProduction` (no +50 milestone bonus), even when `totalBaked`
crosses a threshold; unlike `GameState.bake`, it never calls
`checkMilestones`. -/
theorem claim10_bakeRecipe_frame (s : GameState) (rid : String) (r : Recipe)
    (hfk : findKey rid s.recipes = some r) (hu : r.unlocked = true) :
    (Recipes.bakeRecipe s rid).1 = true ∧
    (Recipes.bakeRecipe s rid).2.milestones = s.milestones ∧
    (Recipes.bakeRecipe s rid).2.money = s.money + r.currentProduction ∧
    (Recipes.bakeRecipe s rid).2.totalMoneyEarned =
      s.totalMoneyEarned + r.currentProduction ∧
    (Recipes.bakeRecipe s rid).2.totalBaked = s.totalBaked + 1 := by
  unfold Recipes.bakeRecipe
  rw [hfk]
  dsimp only
  rw [if_neg (by simp [hu])]
  exact ⟨rfl, rfl, rfl, rfl, rfl⟩

/-- C10 witness: the first cookie bake on a fresh state crosses the
`firstBake` threshold, yet the milestone map is unchanged and the
milestone stays incomplete. -/
theorem claim10_witness :
    (Recipes.bakeRecipe freshState "cookie").2.milestones = freshState.milestones ∧
    (Recipes.bakeRecipe freshState "cookie").2.totalBaked = 1 ∧
    (Recipes.bakeRecipe freshState "cookie").2.milestoneDone "firstBake" = false :=
  ⟨(claim10_bakeRecipe_frame freshState "cookie" _ rfl rfl).2.1, by decide, by decide⟩
